import Mathlib

/-!
Verification of the APEX PREDATOR arbitrage bot (JavaScript, multiple
near-duplicate variants) against its natural-language specification.

The JavaScript source is shallowly embedded below.  JS `BigInt` values are
modelled as `Int`; `BigInt` division truncates toward zero, which is
`Int.tdiv`; a `BigInt` division whose divisor is zero throws a `RangeError`,
which is modelled by returning `none`.  Mutable per-network governor state is
modelled by explicit state records, and the asynchronous strike/rotation
flows by pure step functions over those records.
-/

/-! ## Arithmetic engine -/

/-- Embeds `getAmountOut` (v209.1 math utility):
`amountInWithFee = amountIn * 997n`,
`numerator = amountInWithFee * reserveOut`,
`denominator = reserveIn * 1000n + amountInWithFee`,
result `numerator / denominator` in truncating `BigInt` division.
`none` models the `RangeError` thrown when the denominator is zero. -/
def getAmountOut (amountIn reserveIn reserveOut : Int) : Option Int :=
  let amountInWithFee := amountIn * 997
  let numerator := amountInWithFee * reserveOut
  let denominator := reserveIn * 1000 + amountInWithFee
  if denominator = 0 then none else some (numerator.tdiv denominator)

/-- The loop body of `calculateProfit` (v207.1): folds the constant-product
step over the reserve pairs, threading the running amount. -/
def profitLoop (cur : Int) : List (Int × Int) → Option Int
  | [] => some cur
  | r :: rest =>
    let amtWithFee := cur * 997
    let den := r.1 * 1000 + amtWithFee
    if den = 0 then none else profitLoop ((amtWithFee * r.2).tdiv den) rest

/-- Embeds `calculateProfit` (v207.1): runs the hop loop on `amountIn` and
returns `current - amountIn`. -/
def calculateProfit (amountIn : Int) (reserves : List (Int × Int)) : Option Int :=
  (profitLoop amountIn reserves).map (fun cur => cur - amountIn)

/-- Reference fold of `getAmountOut` across a path, feeding each hop's output
into the next hop's input (the spec's `cyclicProfit` composition). -/
def swapFold (cur : Int) : List (Int × Int) → Option Int
  | [] => some cur
  | r :: rest =>
    match getAmountOut cur r.1 r.2 with
    | none => none
    | some next => swapFold next rest

/-- One iteration of the `calculateCyclicPath` loop (v206.1, `server.js`).
A reserve entry is a decoded result: `none` models a null/undefined entry,
`some fields` an array of decoded fields.  `if (!res || res.length < 2)
continue;` leaves the running amount unchanged. -/
def cyclicHop (cur : Int) (res : Option (List Int)) : Option Int :=
  match res with
  | none => some cur
  | some fields =>
    if fields.length < 2 then some cur
    else
      let resIn := fields.getD 0 0
      let resOut := fields.getD 1 0
      let amountInWithFee := cur * 997
      let numerator := amountInWithFee * resOut
      let denominator := resIn * 1000 + amountInWithFee
      if denominator = 0 then none else some (numerator.tdiv denominator)

/-- The `for (const res of reserves)` loop of `calculateCyclicPath`. -/
def runPath (cur : Int) : List (Option (List Int)) → Option Int
  | [] => some cur
  | r :: rest =>
    match cyclicHop cur r with
    | none => none
    | some next => runPath next rest

/-- Embeds `calculateCyclicPath` (v206.1, `server.js`): folds the hop step
over the decoded reserve list and returns `currentAmount - amountIn`. -/
def calculateCyclicPath (amountIn : Int) (reserves : List (Option (List Int))) : Option Int :=
  (runPath amountIn reserves).map (fun cur => cur - amountIn)

/-- A decoded reserve entry is processed (not skipped) by
`calculateCyclicPath` exactly when it is present and has at least two
fields. -/
def wellFormedRes : Option (List Int) → Bool
  | none => false
  | some fields => decide (2 ≤ fields.length)

/-! ## Batch query engine: the alive-pool validation -/

/-- One entry of the `tryAggregate` result list: a success flag and the raw
hex payload string (`"0x"`-prefixed, as ethers returns it). -/
structure CallResult where
  success : Bool
  returnData : String
deriving DecidableEq

/-- Embeds the validation inside `scan` (v208.4 and v208.5):
`res.success && res.returnData !== "0x" && res.returnData.length >= 66`. -/
def isAlive (res : CallResult) : Bool :=
  res.success && res.returnData != "0x" && decide (66 ≤ res.returnData.length)

/-- Embeds the `aliveCount` accumulation of `scan`: one increment per result
that passes the validation. -/
def aliveCount (results : List CallResult) : Nat :=
  results.foldl (fun n res => if isAlive res then n + 1 else n) 0

/-- Number of payload bytes carried by a hex-string return value: two hex
characters per byte after the `"0x"` prefix. -/
def payloadBytes (res : CallResult) : Nat :=
  (res.returnData.length - 2) / 2

/-- A `getReserves` payload of exactly 32 bytes (66 characters including the
`"0x"` prefix): only the first word of the three-word reserve tuple. -/
def sample32 : String :=
  "0x0000000000000000000000000000000000000000000000000000000000000064"

/-- A full 96-byte `getReserves` payload (194 characters including the
`"0x"` prefix): the complete `(uint112, uint112, uint32)` tuple. -/
def sample96 : String :=
  "0x00000000000000000000000000000000000000000000000000000000000000640000000000000000000000000000000000000000000000000000000000000c80000000000000000000000000000000000000000000000000000000006633f780"

/-! ## Endpoint pool: cursor and rotation lock -/

/-- Embeds the endpoint selection of `rotateProvider`:
`config.rpcs[this.rpcIndex[name] % config.rpcs.length]`. -/
def selectEndpoint (rpcs : List String) (cursor : Nat) : Option String :=
  rpcs[cursor % rpcs.length]?

/-- Embeds the failure handler of `scan` (v207.0 and v208.4):
`this.rpcIndex[name]++` followed by `this.rotateProvider(name)`, which then
selects `rpcs[rpcIndex % rpcs.length]`.  Returns the new cursor and the
endpoint the reconnect binds to. -/
def onScanFailure (rpcs : List String) (cursor : Nat) : Nat × Option String :=
  (cursor + 1, selectEndpoint rpcs (cursor + 1))

/-- The endpoints selected by `n` consecutive scan failures starting from a
given cursor. -/
def failuresTrace (rpcs : List String) : Nat → Nat → List (Option String)
  | _, 0 => []
  | c, n + 1 =>
    (onScanFailure rpcs c).2 :: failuresTrace rpcs (onScanFailure rpcs c).1 n

/-- Mutable per-network governor state touched by `rotateProvider`
(v207.5, `server.js`).  `providerGen`/`walletGen` count how many times
`this.providers[name]` / `this.wallets[name]` have been replaced by a fresh
construction; `rpcIndex` is the endpoint cursor; `isCoolingDown` is the
rotation lock. -/
structure GovState where
  providerGen : Nat
  walletGen : Nat
  rpcIndex : Nat
  isCoolingDown : Bool
deriving DecidableEq

/-- The `try` body of `rotateProvider` (v207.5): construct the provider and,
if a key is configured, rebuild the wallet.  `ok = false` models the
constructor throwing; the returned flag reports whether an exception escaped
the body (there is no `catch` in this variant). -/
def rotateBody (hasKey ok : Bool) (s : GovState) : GovState × Bool :=
  if ok then
    let s1 : GovState := { s with providerGen := s.providerGen + 1 }
    (if hasKey then { s1 with walletGen := s1.walletGen + 1 } else s1, false)
  else (s, true)

/-- The `finally` block of `rotateProvider`: release the rotation lock. -/
def rotateRelease (s : GovState) : GovState :=
  { s with isCoolingDown := false }

/-- Embeds `rotateProvider` (v207.5, `server.js`): return immediately if the
rotation lock is set, otherwise take the lock, run the body, and release the
lock in `finally` on both the normal and the exception path.  The second
component reports whether the call threw. -/
def rotateProvider (hasKey ok : Bool) (s : GovState) : GovState × Bool :=
  if s.isCoolingDown then (s, false)
  else
    let mid : GovState := { s with isCoolingDown := true }
    let body := rotateBody hasKey ok mid
    (rotateRelease body.1, body.2)

/-! ## Scan-cycle error dispatch -/

/-- `needle` occurs at the start of `hay`. -/
def startsWithChars : List Char → List Char → Bool
  | _, [] => true
  | [], _ :: _ => false
  | h :: hs, n :: ns => h == n && startsWithChars hs ns

/-- `needle` occurs somewhere inside `hay`. -/
def containsChars (needle : List Char) : List Char → Bool
  | [] => startsWithChars [] needle
  | c :: hs => startsWithChars (c :: hs) needle || containsChars needle hs

/-- Models JavaScript `s.includes(pat)`: substring containment. -/
def jsIncludes (s pat : String) : Bool :=
  containsChars pat.data s.data

/-- Embeds the `catch` handler of `scanAndStrike` (v207.5, `server.js`):
rotate (cursor `++` then `rotateProvider`) only when the error message
contains `"TIMEOUT"` or `"429"`.  Returns the new cursor and whether a
rotation was triggered. -/
def scanCatchV207_5 (msg : String) (rpcIndex : Nat) : Nat × Bool :=
  if jsIncludes msg "TIMEOUT" || jsIncludes msg "429" then (rpcIndex + 1, true)
  else (rpcIndex, false)

/-- Embeds the `catch` handler of `scan` (v207.3): every caught error
advances the cursor and rotates, whatever the message says. -/
def scanCatchV207_3 (_msg : String) (rpcIndex : Nat) : Nat × Bool :=
  (rpcIndex + 1, true)

/-- Outcome of the batched `aggregate` round trip inside one scan cycle:
either the decoded per-pool payload list, or a thrown error with its
message. -/
inductive AggOutcome where
  | ok (returnData : List String)
  | err (msg : String)

/-- Embeds one `scanAndStrike` cycle (v207.5, `server.js`) after the calls
are built: on success the tick reports `returnData.length` synchronized
pools and rotates nothing; on a caught error the tick reports zero alive
pools (the `catch` logs only the exception, no pool data survives the
tick) and rotates according to the `catch` handler.  Result: new cursor,
whether a rotation was triggered, and the number of pools reported alive
this tick. -/
def scanAndStrikeCycleV207_5 (outcome : AggOutcome) (rpcIndex : Nat) : Nat × Bool × Nat :=
  match outcome with
  | .ok returnData => (rpcIndex, false, returnData.length)
  | .err msg => ((scanCatchV207_5 msg rpcIndex).1, (scanCatchV207_5 msg rpcIndex).2, 0)

/-! ## Strike guard -/

/-- Externally visible actions of a strike attempt: a read-only `staticCall`
simulation or a state-changing submission, each carrying the call's
arguments and attached native value. -/
inductive StrikeEvent where
  | simulate (router tokenA tokenB : String) (amount value : Int)
  | submit (router tokenA tokenB : String) (amount value : Int)
deriving DecidableEq

/-- Whether an event is a state-changing submission. -/
def StrikeEvent.isSubmitEvent : StrikeEvent → Bool
  | .submit _ _ _ _ _ => true
  | _ => false

/-- Whether an event is a read-only simulation. -/
def StrikeEvent.isSimulateEvent : StrikeEvent → Bool
  | .simulate _ _ _ _ _ => true
  | _ => false

/-- Embeds `simulateAndStrike` (v207.1): `staticCall` the executor with the
exact arguments and value, then send the real transaction with the same
arguments and value; any throw lands in the `catch`, which logs the
protected-capital message (`"Simulation Reverted: Ghost Profit
Prevented."`).  `simOk`/`subOk` model whether the simulation/submission
throw; the result is the emitted event trace and whether the
protected-capital log was printed. -/
def simulateAndStrike (simOk subOk : Bool) (router tokenA : String) (amount : Int) :
    List StrikeEvent × Bool :=
  if simOk then
    ([StrikeEvent.simulate router tokenA "0x..." amount amount,
      StrikeEvent.submit router tokenA "0x..." amount amount], !subOk)
  else
    ([StrikeEvent.simulate router tokenA "0x..." amount amount], true)

/-- Embeds the submission phase of `executeStrike` (v206.1, `server.js`,
lines 128-134): once `netProfit > 0n`, the transaction is sent directly —
there is no `staticCall` anywhere in this strike path. -/
def executeStrikeV206_1 (netProfit amountIn : Int) (router : String) : List StrikeEvent :=
  if 0 < netProfit then [StrikeEvent.submit router "0x..." "0x..." amountIn amountIn]
  else []

/-! ## Trade sizing -/

/-- Embeds the sizing step of `executeStrike` (v206.8, lines 116-121):
`execFee = gasPrice * 120n / 100n + parseUnits(priority, "gwei")`,
`overhead = 1000000n * execFee + parseEther(moat)`,
`if (balance < overhead) return;` then `tradeSize = balance - overhead`.
`none` models the early `return` (no strike this tick); all quantities are
in wei. -/
def decideTradeSizeV206_8 (balance gasPrice priorityWei moatWei : Int) : Option Int :=
  let execFee := (gasPrice * 120).tdiv 100 + priorityWei
  let overhead := 1000000 * execFee + moatWei
  if balance < overhead then none else some (balance - overhead)

/-- Embeds the sizing step of `executeStrike` (v206.1, `server.js`, lines
120-121): `amountIn = balance - (parseEther(moat) + parseEther("0.005"))`,
`if (amountIn <= 0n) return;`.  All quantities are in wei; `parseEther
"0.005"` is `5 * 10 ^ 15`. -/
def decideTradeSizeV206_1 (balance moatWei : Int) : Option Int :=
  let amountIn := balance - (moatWei + 5000000000000000)
  if amountIn ≤ 0 then none else some amountIn

/-! ## Theorems -/

/-- C1: for every non-negative `amountIn` and positive `reserveIn`,
`reserveOut`, the swap-output function returns exactly
`floor((amountIn * 997) * reserveOut / (reserveIn * 1000 + amountIn * 997))`,
computed in exact integer arithmetic with floor division (stated via natural
number division, which is floor division). -/
theorem getAmountOut_eq_floor_formula (a rIn rOut : Int)
    (ha : 0 ≤ a) (hin : 0 < rIn) (hout : 0 < rOut) :
    getAmountOut a rIn rOut =
      some ((a.toNat * 997 * rOut.toNat / (rIn.toNat * 1000 + a.toNat * 997) : Nat) : Int) := by
  lift a to ℕ using ha with A
  lift rIn to ℕ using hin.le with RI
  lift rOut to ℕ using hout.le with RO
  have hRI : 0 < RI := by exact_mod_cast hin
  have hden : ((RI : Int) * 1000 + (A : Int) * 997) ≠ 0 := by
    have : (0 : Int) < (RI : Int) * 1000 + (A : Int) * 997 := by positivity
    exact this.ne'
  simp only [getAmountOut, Int.toNat_natCast]
  rw [if_neg hden]
  congr 1

/-- Witness for C1 at `amountIn = 100`, reserves `(1000, 1000)`. -/
theorem getAmountOut_eq_floor_formula_witness :
    getAmountOut 100 1000 1000 = some 90 := by
  have h := getAmountOut_eq_floor_formula 100 1000 1000 (by decide) (by decide) (by decide)
  rw [h]
  decide

/-- C8 counterexample: the swap-output computation does not short-circuit
negative `amountIn`.  At `amountIn = -10`, reserves `(1000, 1000)` it
returns `-10`, not `0`; at `amountIn = -1000`, `reserveIn = 997` the
denominator is zero and the `BigInt` division throws a `RangeError`
(modelled by `none`). -/
theorem getAmountOut_negative_no_shortcircuit :
    getAmountOut (-10) 1000 1000 ≠ some 0
    ∧ getAmountOut (-10) 1000 1000 = some (-10)
    ∧ getAmountOut (-1000) 997 1 = none := by
  refine ⟨by decide, by decide, by decide⟩

/-- C8 (amended): for every reserve pair with positive `reserveIn`, the
swap-output computation with `amountIn` equal to zero yields zero output
and no division error; negative `amountIn` is not short-circuited. -/
theorem getAmountOut_zero_input (rIn rOut : Int) (hin : 0 < rIn) :
    getAmountOut 0 rIn rOut = some 0 := by
  have hden : rIn * 1000 + 0 * 997 ≠ 0 := by
    have : (0 : Int) < rIn * 1000 + 0 * 997 := by positivity
    exact this.ne'
  simp only [getAmountOut]
  rw [if_neg hden]
  simp [Int.zero_tdiv]

/-- Witness for the amended C8 at reserves `(1000, 7)`. -/
theorem getAmountOut_zero_input_witness :
    getAmountOut 0 1000 7 = some 0 :=
  getAmountOut_zero_input 1000 7 (by decide)

/-- C9: `calculateProfit` is exactly the fold of the swap-output function
`getAmountOut` over the hops, feeding each hop's output into the next hop's
input, minus the input amount (a signed value); on the two-hop path with
reserves `(1000, 1000)` then `(1000, 1000)` and `amountIn = 100` the profit
is `-18`, strictly negative, and `calculateCyclicPath` agrees. -/
theorem calculateProfit_folds_swapOutput :
    (∀ (a : Int) (rs : List (Int × Int)),
      calculateProfit a rs = (swapFold a rs).map (fun out => out - a))
    ∧ (∃ p : Int, calculateProfit 100 [(1000, 1000), (1000, 1000)] = some p ∧ p < 0)
    ∧ calculateProfit 100 [(1000, 1000), (1000, 1000)] = some (-18)
    ∧ calculateCyclicPath 100 [some [1000, 1000], some [1000, 1000]] = some (-18) := by
  refine ⟨?_, ⟨-18, by decide, by decide⟩, by decide, by decide⟩
  intro a rs
  unfold calculateProfit
  congr 1
  induction rs generalizing a with
  | nil => rfl
  | cons r rest ih =>
    simp only [profitLoop, swapFold, getAmountOut]
    by_cases h : r.1 * 1000 + a * 997 = 0
    · simp [h]
    · simp only [h, if_false, ih]

/-- C10: in the `calculateCyclicPath` fold, a reserve entry that is missing
or has fewer than two fields is silently skipped — the hop is an identity
step that never fails — so the profit is computed over the well-formed hops
only. -/
theorem calculateCyclicPath_skips_malformed :
    ∀ (a : Int) (rs : List (Option (List Int))),
      calculateCyclicPath a rs = calculateCyclicPath a (rs.filter wellFormedRes)
      ∧ ∀ r, wellFormedRes r = false → cyclicHop a r = some a := by
  have hop : ∀ (a : Int) (r : Option (List Int)),
      wellFormedRes r = false → cyclicHop a r = some a := by
    intro a r h
    match r with
    | none => rfl
    | some fields =>
      simp only [wellFormedRes, decide_eq_false_iff_not, not_le] at h
      simp only [cyclicHop, if_pos h]
  have run : ∀ (rs : List (Option (List Int))) (a : Int),
      runPath a rs = runPath a (rs.filter wellFormedRes) := by
    intro rs
    induction rs with
    | nil => intro a; rfl
    | cons r rest ih =>
      intro a
      by_cases hw : wellFormedRes r
      · simp only [List.filter_cons, hw, if_pos, runPath]
        cases cyclicHop a r with
        | none => rfl
        | some next => exact ih next
      · rw [List.filter_cons_of_neg (by simpa using hw)]
        simp only [runPath, hop a r (by simpa using hw)]
        exact ih a
  intro a rs
  exact ⟨by unfold calculateCyclicPath; rw [run rs a], hop a⟩

/-- Witness for C10: a `none` entry and an entry with a single field are
both skipped, acting as identity steps. -/
theorem calculateCyclicPath_skips_malformed_witness :
    calculateCyclicPath 100 [none, some [7], some [1000, 1000]]
        = calculateCyclicPath 100 [some [1000, 1000]]
    ∧ cyclicHop 100 none = some 100
    ∧ cyclicHop 100 (some [7]) = some 100 := by
  have h := calculateCyclicPath_skips_malformed 100 [none, some [7], some [1000, 1000]]
  exact ⟨by rw [h.1]; rfl, h.2 none rfl, h.2 (some [7]) rfl⟩

/-- C3 counterexample: a successful result whose payload is only 32 bytes
(66 hex characters, far short of the 96 bytes needed for the full
three-field reserve tuple) is nevertheless counted as an alive pool, so
"alive iff payload at least 96 bytes" fails on the code. -/
theorem isAlive_partial_payload_counted :
    isAlive (CallResult.mk true sample32) = true
    ∧ payloadBytes (CallResult.mk true sample32) = 32
    ∧ sample32.length < 194 := by
  refine ⟨by decide, by decide, by decide⟩

set_option maxRecDepth 8192 in
/-- C3 (amended): an entry is counted as an alive pool if and only if its
success flag is true and its payload is at least 32 bytes long (hex string
length at least 66, which also forces it to be non-empty); a batch with one
empty `"0x"` payload and one valid 96-byte payload still reports exactly one
alive pool. -/
theorem isAlive_iff_payload_32_bytes :
    (∀ res : CallResult, isAlive res = (res.success && decide (32 ≤ payloadBytes res)))
    ∧ aliveCount [CallResult.mk true "0x", CallResult.mk true sample96] = 1 := by
  refine ⟨?_, by decide⟩
  intro res
  obtain ⟨su, rd⟩ := res
  simp only [isAlive, payloadBytes]
  cases su
  · simp
  · simp only [Bool.true_and]
    by_cases h : rd = "0x"
    · subst h
      decide
    · have hne : (rd != "0x") = true := by simpa using h
      rw [hne, Bool.true_and]
      rw [decide_eq_decide]
      omega

/-- C5: on each scan failure the endpoint cursor advances by exactly 1, and
the endpoint then selected is `candidates[cursor % length]`, a valid index
into the non-empty candidate list; for a 3-endpoint list starting at cursor
0, five consecutive failures select endpoints `1, 2, 0, 1, 2`. -/
theorem endpointCursor_cycles :
    (∀ (rpcs : List String) (c : Nat), rpcs ≠ [] →
      (onScanFailure rpcs c).1 = c + 1
      ∧ (c + 1) % rpcs.length < rpcs.length
      ∧ (onScanFailure rpcs c).2 = rpcs.get? ((c + 1) % rpcs.length)
      ∧ (onScanFailure rpcs c).2 ≠ none)
    ∧ failuresTrace ["e0", "e1", "e2"] 0 5
        = [some "e1", some "e2", some "e0", some "e1", some "e2"] := by
  refine ⟨?_, by decide⟩
  intro rpcs c hne
  have hlen : 0 < rpcs.length := List.length_pos.mpr hne
  have hlt : (c + 1) % rpcs.length < rpcs.length := Nat.mod_lt _ hlen
  refine ⟨rfl, hlt, ?_, ?_⟩
  · simp only [onScanFailure, selectEndpoint]
    rw [List.get?_eq_getElem?]
  · simp only [onScanFailure, selectEndpoint]
    rw [List.getElem?_eq_getElem hlt]
    exact Option.some_ne_none _

/-- Witness for C5 at a two-endpoint list and cursor 5. -/
theorem endpointCursor_cycles_witness :
    (onScanFailure ["a", "b"] 5).1 = 6
    ∧ failuresTrace ["e0", "e1", "e2"] 0 5
        = [some "e1", some "e2", some "e0", some "e1", some "e2"] :=
  ⟨(endpointCursor_cycles.1 ["a", "b"] 5 (by decide)).1, endpointCursor_cycles.2⟩

/-- C4: calling `rotateProvider` while the network's rotation lock is set is
a no-op (provider, wallet and cursor unchanged, nothing thrown); when the
lock is free the call releases the lock on every exit path, including the
exception path (`ok = false`); a second trigger fired while the first call
holds the lock does nothing, and the first call performs exactly one
provider reconnect and never touches the cursor. -/
theorem rotateProvider_lock_protocol :
    ∀ (hasKey ok : Bool) (s : GovState),
      (s.isCoolingDown = true → rotateProvider hasKey ok s = (s, false))
      ∧ (s.isCoolingDown = false → (rotateProvider hasKey ok s).1.isCoolingDown = false)
      ∧ (s.isCoolingDown = false →
          rotateProvider hasKey ok { s with isCoolingDown := true }
              = ({ s with isCoolingDown := true }, false)
          ∧ (rotateProvider hasKey true s).1.providerGen = s.providerGen + 1
          ∧ (rotateProvider hasKey true s).1.rpcIndex = s.rpcIndex) := by
  intro hasKey ok s
  obtain ⟨pg, wg, ri, lock⟩ := s
  cases lock <;> cases ok <;> cases hasKey <;>
    simp [rotateProvider, rotateBody, rotateRelease]

/-- Witness for C4: the locked state is untouched by a concurrent trigger
and the unlocked state ends with the lock released even when construction
throws. -/
theorem rotateProvider_lock_protocol_witness :
    rotateProvider true false (GovState.mk 3 3 2 true) = (GovState.mk 3 3 2 true, false)
    ∧ (rotateProvider true false (GovState.mk 3 3 2 false)).1.isCoolingDown = false :=
  ⟨(rotateProvider_lock_protocol true false (GovState.mk 3 3 2 true)).1 rfl,
   (rotateProvider_lock_protocol true false (GovState.mk 3 3 2 false)).2.1 rfl⟩

/-- C6 counterexample: in the v207.3 `scan` cycle, a caught decode/logic
error whose message contains neither `"TIMEOUT"` nor `"429"` still advances
the cursor and triggers endpoint rotation. -/
theorem scan_v207_3_rotates_on_decode_error :
    scanCatchV207_3 "could not decode result data" 0 = (1, true)
    ∧ jsIncludes "could not decode result data" "TIMEOUT" = false
    ∧ jsIncludes "could not decode result data" "429" = false := by
  refine ⟨rfl, by decide, by decide⟩

/-- C6 (amended): in the v207.5 `scanAndStrike` cycle, a caught error whose
message contains neither `"TIMEOUT"` nor `"429"` (e.g. a decode or logic
error) is reported as zero alive pools for that tick and does not trigger
endpoint rotation (cursor and provider untouched); a caught timeout-class
or rate-limit-class error triggers rotation (cursor advance plus
reconnect), also reporting zero alive pools.  In the v207.3 `scan` cycle,
every caught error triggers rotation. -/
theorem scanAndStrike_rotation_dispatch :
    ∀ (msg : String) (c : Nat),
      (jsIncludes msg "TIMEOUT" = false → jsIncludes msg "429" = false →
        scanAndStrikeCycleV207_5 (AggOutcome.err msg) c = (c, false, 0))
      ∧ (jsIncludes msg "TIMEOUT" = true ∨ jsIncludes msg "429" = true →
        scanAndStrikeCycleV207_5 (AggOutcome.err msg) c = (c + 1, true, 0))
      ∧ scanCatchV207_3 msg c = (c + 1, true) := by
  intro msg c
  refine ⟨?_, ?_, rfl⟩
  · intro h1 h2
    simp [scanAndStrikeCycleV207_5, scanCatchV207_5, h1, h2]
  · intro h
    rcases h with h | h <;> simp [scanAndStrikeCycleV207_5, scanCatchV207_5, h]

/-- Witness for the amended C6: a decode error leaves the cursor alone and
reports zero alive pools in v207.5; a timeout rotates. -/
theorem scanAndStrike_rotation_dispatch_witness :
    scanAndStrikeCycleV207_5 (AggOutcome.err "could not decode result data") 4
        = (4, false, 0)
    ∧ scanAndStrikeCycleV207_5 (AggOutcome.err "RPC_TIMEOUT") 4 = (5, true, 0)
    ∧ scanCatchV207_3 "could not decode result data" 4 = (5, true) :=
  ⟨(scanAndStrike_rotation_dispatch "could not decode result data" 4).1
      (by decide) (by decide),
   (scanAndStrike_rotation_dispatch "RPC_TIMEOUT" 4).2.1 (Or.inl (by decide)),
   (scanAndStrike_rotation_dispatch "could not decode result data" 4).2.2⟩

/-- C2 counterexample: the v206.1 `executeStrike` path submits a
state-changing transaction with no read-only simulation anywhere before it,
so "every strike attempt simulates before submitting" fails on the code. -/
theorem executeStrike_v206_submits_without_simulation :
    (executeStrikeV206_1 1 100 "router").countP StrikeEvent.isSimulateEvent = 0
    ∧ (executeStrikeV206_1 1 100 "router").countP StrikeEvent.isSubmitEvent = 1 := by
  refine ⟨by decide, by decide⟩

/-- C2 (amended): in the `simulateAndStrike` guard (v207.1) the first action
of every attempt is a read-only simulation carrying exactly the arguments
and value that would be submitted; whenever the simulation fails, the
attempt ends with zero submitted transactions and the protected-capital
outcome logged; and any submission that does happen uses exactly the
simulated arguments and value.  The v206.1 `executeStrike` path submits
without any prior simulation. -/
theorem simulateAndStrike_guard :
    ∀ (simOk subOk : Bool) (router tokenA : String) (amount : Int),
      (simulateAndStrike simOk subOk router tokenA amount).1.head?
          = some (StrikeEvent.simulate router tokenA "0x..." amount amount)
      ∧ (simOk = false →
          (simulateAndStrike simOk subOk router tokenA amount).1.countP
              StrikeEvent.isSubmitEvent = 0
          ∧ (simulateAndStrike simOk subOk router tokenA amount).2 = true)
      ∧ (∀ e ∈ (simulateAndStrike simOk subOk router tokenA amount).1,
          e.isSubmitEvent = true → e = StrikeEvent.submit router tokenA "0x..." amount amount) := by
  intro simOk subOk router tokenA amount
  cases simOk
  · refine ⟨rfl, fun _ => ⟨rfl, rfl⟩, ?_⟩
    intro e he hsub
    simp only [simulateAndStrike, Bool.false_eq_true, if_false, List.mem_singleton] at he
    subst he
    simp [StrikeEvent.isSubmitEvent] at hsub
  · refine ⟨rfl, fun h => by simp at h, ?_⟩
    intro e he hsub
    simp only [simulateAndStrike, if_true, List.mem_cons, List.mem_singleton,
      List.not_mem_nil, or_false] at he
    rcases he with he | he
    · subst he
      simp [StrikeEvent.isSubmitEvent] at hsub
    · exact he

/-- Witness for the amended C2: with a reverting simulation, the trace is
exactly the one simulation event, nothing is submitted, and the
protected-capital log fires. -/
theorem simulateAndStrike_guard_witness :
    (simulateAndStrike false true "router" "tokenA" 5).1.countP
        StrikeEvent.isSubmitEvent = 0
    ∧ (simulateAndStrike false true "router" "tokenA" 5).2 = true :=
  (simulateAndStrike_guard false true "router" "tokenA" 5).2.1 rfl

/-- C7 counterexample: in the v206.8 sizing, when the balance equals the
overhead exactly the trade size comes out as `0` — which is `≤ 0` — yet the
guard `if (balance < overhead) return;` does not fire, so a strike is still
attempted that tick (with gas price 2.5 gwei, priority 2 gwei, moat 0.01
ETH, the overhead is 0.015 ETH; balance 0.015 ETH yields `some 0`). -/
theorem tradeSize_zero_still_strikes :
    decideTradeSizeV206_8 15000000000000000 2500000000 2000000000 10000000000000000
      = some 0 := by
  decide

/-- C7 (amended): the trade size is `balance - overhead` with
`overhead = moat + (⌊gasPrice * 1.2⌋ + priority) * 1000000` (the assumed
gas budget); in the v206.8 sizing no strike is attempted exactly when
`balance < overhead` (a balance equal to the overhead still strikes, with
trade size 0); in the v206.1 sizing no strike is attempted whenever the
trade size is `≤ 0`; with balance 1.0, moat 0.01 and a combined gas
overhead of 0.005 (all in native units) the trade size is 0.985, and with
balance 0.005 no strike is attempted. -/
theorem decideTradeSize_overhead :
    ∀ (balance gasPrice prio moat : Int),
      (balance < moat + ((gasPrice * 120).tdiv 100 + prio) * 1000000 →
        decideTradeSizeV206_8 balance gasPrice prio moat = none)
      ∧ (moat + ((gasPrice * 120).tdiv 100 + prio) * 1000000 ≤ balance →
        decideTradeSizeV206_8 balance gasPrice prio moat
          = some (balance - (moat + ((gasPrice * 120).tdiv 100 + prio) * 1000000)))
      ∧ (balance - (moat + 5000000000000000) ≤ 0 →
        decideTradeSizeV206_1 balance moat = none)
      ∧ (0 < balance - (moat + 5000000000000000) →
        decideTradeSizeV206_1 balance moat
          = some (balance - (moat + 5000000000000000)))
      ∧ decideTradeSizeV206_1 1000000000000000000 10000000000000000
          = some 985000000000000000
      ∧ decideTradeSizeV206_1 5000000000000000 10000000000000000 = none := by
  intro balance gasPrice prio moat
  refine ⟨?_, ?_, ?_, ?_, by decide, by decide⟩
  · intro h
    simp only [decideTradeSizeV206_8]
    rw [if_pos (by linarith [h])]
  · intro h
    simp only [decideTradeSizeV206_8]
    rw [if_neg (by push_neg; linarith [h])]
    congr 1
    ring
  · intro h
    simp only [decideTradeSizeV206_1]
    rw [if_pos h]
  · intro h
    simp only [decideTradeSizeV206_1]
    rw [if_neg (not_le.mpr h)]

/-- Witness for the amended C7: balance 1 ETH, gas parameters giving an
execution cost of 0.005 ETH, moat 0.01 ETH — the trade size is 0.985 ETH in
both sizings; balance 0.005 ETH with the same config strikes in neither. -/
theorem decideTradeSize_overhead_witness :
    decideTradeSizeV206_8 1000000000000000000 2500000000 2000000000 10000000000000000
        = some 985000000000000000
    ∧ decideTradeSizeV206_8 5000000000000000 2500000000 2000000000 10000000000000000
        = none
    ∧ decideTradeSizeV206_1 1000000000000000000 10000000000000000
        = some 985000000000000000
    ∧ decideTradeSizeV206_1 5000000000000000 10000000000000000 = none := by
  have h1 := decideTradeSize_overhead 1000000000000000000 2500000000 2000000000
    10000000000000000
  have h2 := decideTradeSize_overhead 5000000000000000 2500000000 2000000000
    10000000000000000
  refine ⟨?_, h2.1 (by decide), ?_, h2.2.2.1 (by decide)⟩
  · rw [h1.2.1 (by decide)]
    decide
  · rw [h1.2.2.2.1 (by decide)]
    decide
